import Mathlib

/-!
Verification of the ProteinKnotDetector pipeline.

The repository contains three near-duplicate variants of the same pipeline:
`pipeline(with_ModeII_Removed).py` (CLI, direct mode only), `alpha_lookup.py`
(CLI with sliding-window mode) and `app.py` (Streamlit UI with sliding-window
mode).  The definitions below are a shallow embedding of the pure logic of
those scripts: the external structure-prediction service and the external
topology library are modelled as inputs (an oracle from fragment ranges to an
optional predicted structure), confidence values and probabilities are modelled
as rationals, and a parsed structure document is modelled as the list of its
records, each carrying the raw record text and the parse result of its
confidence field (columns 60-66).
-/

namespace ProteinKnot

/-- One line (record) of a structural-coordinate (PDB) document.  `text` is the
raw record text (used for the `startswith("ATOM")` filter); `bfactor` is the
result of `float(line[60:66].strip())`: `some v` when the field parses, `none`
when it raises `ValueError` (the parse itself is external to the arithmetic the
claims are about, so its result is part of the input). -/
structure PDBLine where
  text : String
  bfactor : Option ℚ
deriving DecidableEq

/-- A structure document is the list of its records. -/
abbrev PDB := List PDBLine

/-- `line.startswith("ATOM")`, written as a match on the character list so it
evaluates inside the kernel. -/
def startsWithATOM (s : String) : Bool :=
  match s.data with
  | 'A' :: 'T' :: 'O' :: 'M' :: _ => true
  | _ => false

/-- The confidence values extracted by the `calculate_plddt` loop common to all
three variants: every record starting with "ATOM" whose columns 60-66 parse as
a float, in document order. -/
def collectPlddt (pdb : PDB) : List ℚ :=
  (pdb.filter (fun l => startsWithATOM l.text)).filterMap (fun l => l.bfactor)

/-- Arithmetic mean of a list of rationals (`np.mean`). -/
def listMean (xs : List ℚ) : ℚ :=
  xs.sum / (xs.length : ℚ)

/-- `calculate_plddt` from `alpha_lookup.py` (lines 39-52): empty value list
gives 0.0; a mean ≤ 1.0 is rescaled by 100; otherwise the raw mean. -/
def alphaCalculatePlddt (pdb : PDB) : ℚ :=
  let vals := collectPlddt pdb
  if vals = [] then 0
  else
    let mean := listMean vals
    if mean ≤ 1 then mean * 100 else mean

/-- `calculate_plddt` from `app.py` (lines 45-58): empty value list gives 0.0;
otherwise the raw mean is returned with no rescaling. -/
def appCalculatePlddt (pdb : PDB) : ℚ :=
  let vals := collectPlddt pdb
  if vals = [] then 0 else listMean vals

/-- `calculate_plddt` from `pipeline(with_ModeII_Removed).py` (lines 47-78):
empty value list gives 100.0; a mean ≤ 1.0 is rescaled by 100; otherwise the
raw mean. -/
def pipelineCalculatePlddt (pdb : PDB) : ℚ :=
  let vals := collectPlddt pdb
  if vals = [] then 100
  else
    let mean := listMean vals
    if mean ≤ 1 then mean * 100 else mean

/-- A knot-type probability distribution, as returned by `topoly.alexander`:
a Python dict from knot-type label to probability, modelled as its list of
key-value pairs in insertion order (dict keys are unique and iteration follows
insertion order). -/
abbrev KnotDist := List (String × ℚ)

/-- `alex_dist.get(key, 0.0)`: the value stored at the first (unique) matching
key, or 0 when the key is absent. -/
def distGet (d : KnotDist) (k : String) : ℚ :=
  match d.find? (fun p => p.1 = k) with
  | some p => p.2
  | none => 0

/-- `max(alex_dist, key=alex_dist.get)` on a non-empty dict: Python's `max`
scans in iteration order and keeps the first element whose key value is
maximal (it replaces the current best only on a strictly greater value). -/
def pyMaxEntry (p : String × ℚ) (l : KnotDist) : String × ℚ :=
  l.foldl (fun best q => if q.2 > best.2 then q else best) p

/-- Result triple of `run_topology_analysis`: dominant knot type (None on the
exception fallback), a confidence slot, and the knotted probability. -/
structure TopoVerdict where
  dominant : Option String
  conf : ℚ
  probKnotted : ℚ
deriving DecidableEq

/-- `run_topology_analysis` from `alpha_lookup.py` (lines 54-64).  The input is
what `topoly.alexander` returned: `none` models a missing distribution (Python
`None`, falsy like the empty dict).  The library raising an exception is the
separate `except` fallback, modelled by `alphaTopologyOnFailure` below. -/
def alphaRunTopologyAnalysis (alexDist : Option KnotDist) : TopoVerdict :=
  match alexDist with
  | none => ⟨some "0_1", 0, 0⟩
  | some [] => ⟨some "0_1", 0, 0⟩
  | some (p :: rest) =>
    ⟨some (pyMaxEntry p rest).1, 0, 1 - distGet (p :: rest) "0_1"⟩

/-- The `except` branch of `run_topology_analysis` in `alpha_lookup.py`:
`return None, 0, 0`. -/
def alphaTopologyOnFailure : TopoVerdict := ⟨none, 0, 0⟩

/-- `run_topology_analysis` from `pipeline(with_ModeII_Removed).py` (lines
80-107): same computation, except the middle slot carries
`alex_dist[dominant_knot]` (dict lookup at the dominant key). -/
def pipelineRunTopologyAnalysis (alexDist : Option KnotDist) : TopoVerdict :=
  match alexDist with
  | none => ⟨some "0_1", 0, 0⟩
  | some [] => ⟨some "0_1", 0, 0⟩
  | some (p :: rest) =>
    let dom := (pyMaxEntry p rest).1
    ⟨some dom, distGet (p :: rest) dom, 1 - distGet (p :: rest) "0_1"⟩

/-- `run_topology_analysis` from `app.py` (lines 60-69): returns the pair
(dominant knot type, knotted probability). -/
def appRunTopologyAnalysis (alexDist : Option KnotDist) : Option String × ℚ :=
  match alexDist with
  | none => (some "0_1", 0)
  | some [] => (some "0_1", 0)
  | some (p :: rest) =>
    (some (pyMaxEntry p rest).1, 1 - distGet (p :: rest) "0_1")

/- Configuration constants shared by `alpha_lookup.py` and `app.py`. -/

def KNOT_THRESHOLD : ℚ := 1/2

def WINDOW_SIZE : ℕ := 400

def OVERLAP : ℕ := 200

/-!
The sliding-window loop of `alpha_lookup.py` (lines 95-101) and `app.py`
(lines 99-104):

    step = WINDOW_SIZE - OVERLAP
    for start in range(0, seq_len, step):
        end = min(start + WINDOW_SIZE, seq_len)
        if (end - start) < 50: break
        ...

Parametrised over window size, overlap and the minimum fragment size (50 in
the source).  For a positive step the Python loop visits `start = 0, step,
2*step, ...` while `start < seq_len`; the recursion below carries the fuel
`seqLen + 1`, which is enough since the loop body runs at most
`ceil(seqLen / step) ≤ seqLen` times when `step ≥ 1`.
-/

/-- The chunk list produced by the `for start in range(0, seqLen, step)` loop
with positive `step`: emit `(start, min (start + ws) seqLen)` unless the
candidate is shorter than `mfs` (the `break`), then move `start` up by
`step`. -/
def chunksFrom (seqLen ws mfs step : ℕ) : ℕ → ℕ → List (ℕ × ℕ)
  | 0, _ => []
  | fuel + 1, start =>
    if start < seqLen then
      if min (start + ws) seqLen - start < mfs then []
      else (start, min (start + ws) seqLen) ::
        chunksFrom seqLen ws mfs step fuel (start + step)
    else []

/-- The full window plan for a sequence of length `seqLen`, with
`step = ws - ov`. -/
def planChunks (seqLen ws ov mfs : ℕ) : List (ℕ × ℕ) :=
  chunksFrom seqLen ws mfs (ws - ov) (seqLen + 1) 0

/-- Modelled from the spec (§4.1), for comparison with `planChunks`: "Starting
at `start = 0`, repeatedly emit `[start, min(start + window_size,
sequence_length))`, then advance `start += step`, until either
`start >= sequence_length` or the next candidate fragment's length
`< min_fragment_size`, in which case generation stops without emitting that
final short fragment." -/
def specEmitFrom (seqLen ws mfs step : ℕ) : ℕ → ℕ → List (ℕ × ℕ)
  | 0, _ => []
  | fuel + 1, start =>
    if seqLen ≤ start ∨ min (start + ws) seqLen - start < mfs then []
    else (start, min (start + ws) seqLen) ::
      specEmitFrom seqLen ws mfs step fuel (start + step)

/-- The spec-described window plan (same fuel as `planChunks`). -/
def specWindowRanges (seqLen ws ov mfs : ℕ) : List (ℕ × ℕ) :=
  specEmitFrom seqLen ws mfs (ws - ov) (seqLen + 1) 0

/-- Python `range(0, seqLen, step)` semantics for an arbitrary integer step,
as used by `run_sliding_window`: `step = 0` raises
`ValueError: range() arg 3 must not be zero` before the first iteration; a
negative step counts downward from 0, which immediately fails the `i > stop`
condition (for `seqLen ≥ 0`), so the loop body never runs and the plan is
empty; a positive step is the `planChunks` loop. -/
def planChunksPy (seqLen ws ov mfs : ℕ) : Except String (List (ℕ × ℕ)) :=
  let step : ℤ := (ws : ℤ) - (ov : ℤ)
  if step = 0 then Except.error "ValueError"
  else if step < 0 then Except.ok []
  else Except.ok (planChunks seqLen ws ov mfs)

/-- What `retrieve_structure` hands downstream on success, bundling everything
the two extractors read from the persisted file: the structure document (read
by `calculate_plddt`) and the distribution that `topoly.alexander` computes
from that same file (read by `run_topology_analysis`).  The whole external
world of one fragment is an oracle `ℕ × ℕ → Option StructureModel`; `none`
models `retrieve_structure` returning `None` (transport exception, status 413
or any other non-200 status). -/
structure StructureModel where
  pdb : PDB
  alexDist : Option KnotDist
deriving DecidableEq

/-- The return tuple of `analyze_chunk` in `alpha_lookup.py`:
`(is_knotted, knot_type, plddt-or-0, filename-or-None)`.  The filename
`f"fragment_{start}_{end}.pdb"` is determined by the range, so it is modelled
by the range itself. -/
structure ChunkOutcome where
  isKnotted : Bool
  knotType : Option String
  quality : ℚ
  fileId : Option (ℕ × ℕ)
deriving DecidableEq

/-- `analyze_chunk` from `alpha_lookup.py` (lines 66-85): on a failed
retrieval, or on a knotted probability not exceeding the threshold, the
fall-through `(False, None, 0, None)`; otherwise
`(True, knot_type, plddt, filename)`. -/
def analyzeChunk (fetch : ℕ × ℕ → Option StructureModel) (frag : ℕ × ℕ) :
    ChunkOutcome :=
  match fetch frag with
  | some s =>
    let plddt := alphaCalculatePlddt s.pdb
    let t := alphaRunTopologyAnalysis s.alexDist
    if t.probKnotted > KNOT_THRESHOLD then ⟨true, t.dominant, plddt, some frag⟩
    else ⟨false, none, 0, none⟩
  | none => ⟨false, none, 0, none⟩

/-- One entry of the `knots_found` / `results` report list:
`{"range": f"{start+1}-{end}", "type": k_type, "quality": qual}`. -/
structure KnotRecord where
  rangeStart : ℕ
  rangeEnd : ℕ
  ktype : Option String
  quality : ℚ
deriving DecidableEq

/-- `run_sliding_window` from `alpha_lookup.py` (lines 87-112): walk the
chunk plan (window 400, overlap 200, minimum fragment 50), analyze each chunk
(ranges are passed 1-based: `start+1` to `end`) and collect the fragments
whose outcome is knotted. -/
def runSlidingWindow (fetch : ℕ × ℕ → Option StructureModel) (seqLen : ℕ) :
    List KnotRecord :=
  (planChunks seqLen WINDOW_SIZE OVERLAP 50).filterMap (fun c =>
    let r := analyzeChunk fetch (c.1 + 1, c.2)
    if r.isKnotted then some ⟨c.1 + 1, c.2, r.knotType, r.quality⟩ else none)

/-- The windowed-mode chunk loop of `app.py` (lines 108-135): for each planned
chunk, on a successful fetch run the quality and topology analyses and append
a result row when the knotted probability exceeds the threshold; a transport
failure or non-200 status appends nothing (`except: pass`). -/
def appRunWindowed (fetch : ℕ × ℕ → Option StructureModel) (seqLen : ℕ) :
    List KnotRecord :=
  (planChunks seqLen WINDOW_SIZE OVERLAP 50).filterMap (fun c =>
    match fetch (c.1 + 1, c.2) with
    | none => none
    | some s =>
      let plddt := appCalculatePlddt s.pdb
      let t := appRunTopologyAnalysis s.alexDist
      if t.2 > KNOT_THRESHOLD then some ⟨c.1 + 1, c.2, t.1, plddt⟩ else none)

/-- Overall conclusion of a windowed run. -/
inductive Conclusion
  | knotted
  | unknotted
deriving DecidableEq

/-- The final report of the windowed mode in `alpha_lookup.py` (lines
119-130): "KNOTS DETECTED in n fragments" when the result list is non-empty,
"No knots detected in any fragment" otherwise. -/
def windowedConclusion (results : List KnotRecord) : Conclusion :=
  if results.isEmpty then Conclusion.unknotted else Conclusion.knotted

/-- Conclusion of a direct-mode (single-fragment) run. -/
inductive DirectConclusion
  | knotDetected
  | unknotted
  | ambiguous
deriving DecidableEq

/-- The direct-mode verdict of `pipeline(with_ModeII_Removed).py` (lines
143-149): `> KNOT_THRESHOLD` is knotted, `< 0.2` is unknotted, anything in
between is "AMBIGUOUS / SHALLOW KNOT". -/
def pipelineDirectVerdict (prob : ℚ) : DirectConclusion :=
  if prob > KNOT_THRESHOLD then DirectConclusion.knotDetected
  else if prob < 1/5 then DirectConclusion.unknotted
  else DirectConclusion.ambiguous

/-- The small-sequence verdict of `app.py` (lines 176-181): same three-way
rule as the pipeline variant. -/
def appDirectVerdict (prob : ℚ) : DirectConclusion :=
  if prob > KNOT_THRESHOLD then DirectConclusion.knotDetected
  else if prob < 1/5 then DirectConclusion.unknotted
  else DirectConclusion.ambiguous

/-- The direct-mode verdict of `alpha_lookup.py` (lines 145-148): two-way
only, `> KNOT_THRESHOLD` is knotted and everything else is "UNKNOTTED". -/
def alphaDirectVerdict (prob : ℚ) : DirectConclusion :=
  if prob > KNOT_THRESHOLD then DirectConclusion.knotDetected
  else DirectConclusion.unknotted

/-- The invariant claimed for the emitted plan: every consecutive pair of
ranges, apart from the pair that involves the final range, overlaps by exactly
`ov` residues (`i` indexes the pair `(l[i], l[i+1])`, and `i < l.length - 2`
excludes the pair whose second element is the last range). -/
def overlapExceptLast (l : List (ℕ × ℕ)) (ov : ℕ) : Prop :=
  ∀ i < l.length - 2, (l.getD i (0, 0)).2 - (l.getD (i + 1) (0, 0)).1 = ov

instance (l : List (ℕ × ℕ)) (ov : ℕ) : Decidable (overlapExceptLast l ov) :=
  Nat.decidableBallLT _ _

/-! Helper lemmas about the window-plan loop. -/

theorem chunksFrom_eq_specEmitFrom (seqLen ws mfs step : ℕ) :
    ∀ fuel start, chunksFrom seqLen ws mfs step fuel start =
      specEmitFrom seqLen ws mfs step fuel start := by
  intro fuel
  induction fuel with
  | zero => intro start; rfl
  | succ n ih =>
    intro start
    rw [chunksFrom, specEmitFrom]
    by_cases h1 : start < seqLen
    · by_cases h2 : min (start + ws) seqLen - start < mfs
      · simp [h1, h2]
      · simp [h1, h2, ih, Nat.not_le.mpr h1]
    · simp [h1, Nat.le_of_not_lt h1]

theorem chunksFrom_head?_fst (seqLen ws mfs step fuel start : ℕ) (p : ℕ × ℕ)
    (h : (chunksFrom seqLen ws mfs step fuel start).head? = some p) :
    p.1 = start := by
  cases fuel with
  | zero => simp [chunksFrom] at h
  | succ n =>
    rw [chunksFrom] at h
    split at h
    · split at h
      · simp at h
      · simp at h; rw [← h]
    · simp at h

theorem chunksFrom_mem (seqLen ws mfs step : ℕ) :
    ∀ fuel start p, p ∈ chunksFrom seqLen ws mfs step fuel start →
      p.2 = min (p.1 + ws) seqLen ∧ mfs ≤ p.2 - p.1 ∧ start ≤ p.1 ∧
      p.1 < seqLen := by
  intro fuel
  induction fuel with
  | zero => intro start p h; simp [chunksFrom] at h
  | succ n ih =>
    intro start p h
    rw [chunksFrom] at h
    split at h
    · split at h
      · simp at h
      · rcases List.mem_cons.mp h with h' | h'
        · subst h'
          refine ⟨rfl, by omega, le_refl _, by omega⟩
        · have := ih (start + step) p h'
          exact ⟨this.1, this.2.1, by omega, this.2.2.2⟩
    · simp at h

theorem chunksFrom_chain (seqLen ws mfs step : ℕ) :
    ∀ fuel start, List.Chain' (fun a b => b.1 = a.1 + step)
      (chunksFrom seqLen ws mfs step fuel start) := by
  intro fuel
  induction fuel with
  | zero => intro start; simp [chunksFrom]
  | succ n ih =>
    intro start
    rw [chunksFrom]
    split
    · split
      · simp
      · refine List.chain'_cons'.mpr ⟨?_, ih (start + step)⟩
        intro y hy
        have := chunksFrom_head?_fst seqLen ws mfs step n (start + step) y hy
        exact this
    · simp

/-! Helper lemmas about the Python `max(d, key=d.get)` fold. -/

theorem pyMaxEntry_mem (p : String × ℚ) (l : KnotDist) :
    pyMaxEntry p l = p ∨ pyMaxEntry p l ∈ l := by
  induction l generalizing p with
  | nil => left; rfl
  | cons q t ih =>
    have hstep : pyMaxEntry p (q :: t) =
        pyMaxEntry (if q.2 > p.2 then q else p) t := rfl
    rw [hstep]
    rcases ih (if q.2 > p.2 then q else p) with h | h
    · rw [h]
      by_cases hc : q.2 > p.2
      · right; simp [hc]
      · left; simp [hc]
    · right; exact List.mem_cons_of_mem q h

theorem pyMaxEntry_max (p : String × ℚ) (l : KnotDist) :
    p.2 ≤ (pyMaxEntry p l).2 ∧ ∀ q ∈ l, q.2 ≤ (pyMaxEntry p l).2 := by
  induction l generalizing p with
  | nil => exact ⟨le_refl _, by simp⟩
  | cons q t ih =>
    have hstep : pyMaxEntry p (q :: t) =
        pyMaxEntry (if q.2 > p.2 then q else p) t := rfl
    rw [hstep]
    have h := ih (if q.2 > p.2 then q else p)
    constructor
    · refine le_trans ?_ h.1
      by_cases hc : q.2 > p.2 <;> simp [hc]
      exact le_of_lt hc
    · intro r hr
      rcases List.mem_cons.mp hr with h' | h'
      · subst h'
        refine le_trans ?_ h.1
        by_cases hc : r.2 > p.2 <;> simp [hc]
        exact le_of_not_lt hc
      · exact h.2 r h'

/-! Claim theorems. -/

/-- C1: for every `sequence_length`, `window_size`, `overlap` and
`min_fragment_size` with positive step, the window planner emits exactly the
ranges of the spec's generation process (emit `[start, min(start +
window_size, sequence_length))` from `start = 0`, advancing by `step`,
stopping without emitting as soon as `start ≥ sequence_length` or the
candidate is shorter than `min_fragment_size`); and for sequence length 1000,
window 400, overlap 200, minimum 50 the emitted ranges are exactly `[0,400),
[200,600), [400,800), [600,1000), [800,1000)` in that order. -/
theorem C1_window_planner_refines_spec :
    (∀ seqLen ws ov mfs : ℕ, ov < ws →
      planChunks seqLen ws ov mfs = specWindowRanges seqLen ws ov mfs) ∧
    planChunks 1000 400 200 50 =
      [(0, 400), (200, 600), (400, 800), (600, 1000), (800, 1000)] := by
  constructor
  · intro seqLen ws ov mfs _
    exact chunksFrom_eq_specEmitFrom seqLen ws mfs (ws - ov) (seqLen + 1) 0
  · decide

/-- Witness for C1 at the concrete parameters of scenario B. -/
theorem C1_window_planner_refines_spec_witness :
    200 < 400 ∧
    planChunks 1000 400 200 50 = specWindowRanges 1000 400 200 50 :=
  ⟨by decide, C1_window_planner_refines_spec.1 1000 400 200 50 (by decide)⟩

/-- C6 counterexample: with sequence length 6, window 4, overlap 3 (so
`0 < overlap < window_size`) and minimum fragment size 1, the plan is
`[0,4), [1,5), [2,6), [3,6), [4,6), [5,6)`, and the consecutive pair
`([3,6), [4,6))` — whose second element is not the final range — overlaps by
2 residues, not by `overlap = 3`.  The claimed invariant fails whenever a
range truncated by the sequence end is followed by two or more further
ranges. -/
theorem C6_overlap_invariant_counterexample :
    (0 < 3 ∧ 3 < 4) ∧
    planChunks 6 4 3 1 = [(0, 4), (1, 5), (2, 6), (3, 6), (4, 6), (5, 6)] ∧
    ¬ overlapExceptLast (planChunks 6 4 3 1) 3 ∧
    (planChunks 6 4 3 1).getD 3 (0, 0) = (3, 6) ∧
    (planChunks 6 4 3 1).getD 4 (0, 0) = (4, 6) ∧
    (6 : ℕ) - 4 = 2 := by
  exact ⟨⟨by decide, by decide⟩, by decide, by decide, by decide, by decide,
    by decide⟩

/-- C6 amended: for `0 < overlap < window_size` the emitted plan satisfies:
consecutive starts differ by exactly `step = window_size − overlap` (hence
starts are strictly increasing), consecutive ranges overlap by exactly
`overlap` residues whenever the earlier range of the pair is untruncated
(its end is `start + window_size`), no range's end exceeds
`sequence_length`, and every emitted range — including the final one — has
length at least `min_fragment_size`. -/
theorem C6_window_invariants_amended (seqLen ws ov mfs : ℕ) (h0 : 0 < ov)
    (h1 : ov < ws) :
    List.Chain' (fun a b => b.1 = a.1 + (ws - ov) ∧ a.1 < b.1 ∧
      (a.2 = a.1 + ws → a.2 - b.1 = ov)) (planChunks seqLen ws ov mfs) ∧
    ∀ p ∈ planChunks seqLen ws ov mfs, p.2 ≤ seqLen ∧ mfs ≤ p.2 - p.1 := by
  constructor
  · refine List.Chain'.imp ?_
      (chunksFrom_chain seqLen ws mfs (ws - ov) (seqLen + 1) 0)
    intro a b hab
    exact ⟨hab, by omega, fun he => by omega⟩
  · intro p hp
    have h := chunksFrom_mem seqLen ws mfs (ws - ov) (seqLen + 1) 0 p hp
    have h2 := h.1
    exact ⟨by omega, h.2.1⟩

/-- Witness for the amended C6 at the repository's parameters. -/
theorem C6_window_invariants_amended_witness :
    (0 < 200 ∧ 200 < 400) ∧
    List.Chain' (fun a b => b.1 = a.1 + (400 - 200) ∧ a.1 < b.1 ∧
      (a.2 = a.1 + 400 → a.2 - b.1 = 200)) (planChunks 1000 400 200 50) ∧
    ∀ p ∈ planChunks 1000 400 200 50, p.2 ≤ 1000 ∧ 50 ≤ p.2 - p.1 :=
  ⟨⟨by decide, by decide⟩,
    C6_window_invariants_amended 1000 400 200 50 (by decide) (by decide)⟩

/-- C7 counterexample: at window 400, overlap 500 the step `400 − 500` is
negative, yet planning does not fail: the Python `range` is simply empty, the
plan succeeds with no ranges, and the windowed run completes with the
"No knots detected" conclusion instead of aborting. -/
theorem C7_nonpositive_step_counterexample :
    ((400 : ℤ) - 500 < 0) ∧
    planChunksPy 1000 400 500 50 = Except.ok [] ∧
    windowedConclusion [] = Conclusion.unknotted := by
  exact ⟨by decide, rfl, by decide⟩

/-- C7 amended: no `ConfigurationError` exists in the code.  For a zero step
(`window_size = overlap`) the `range` call raises Python's `ValueError` —
which does abort before any fragment analysis — and for a negative step
(`overlap > window_size`) the loop body never runs: planning succeeds with an
empty plan and the run produces an empty "no knots" report rather than
aborting. -/
theorem C7_step_behavior_amended (seqLen ws ov mfs : ℕ) :
    (ws = ov → planChunksPy seqLen ws ov mfs = Except.error "ValueError") ∧
    (ws < ov → planChunksPy seqLen ws ov mfs = Except.ok [] ∧
      windowedConclusion [] = Conclusion.unknotted) := by
  constructor
  · intro h; subst h; simp [planChunksPy]
  · intro h
    have h0 : ((ws : ℤ) - (ov : ℤ) ≠ 0) := by omega
    have h2 : ((ws : ℤ) - (ov : ℤ) < 0) := by omega
    exact ⟨by simp [planChunksPy, h0, h2], by decide⟩

/-- Witness for the amended C7 at both non-positive step shapes. -/
theorem C7_step_behavior_amended_witness :
    planChunksPy 1000 400 400 50 = Except.error "ValueError" ∧
    planChunksPy 1000 400 500 50 = Except.ok [] :=
  ⟨(C7_step_behavior_amended 1000 400 400 50).1 rfl,
   ((C7_step_behavior_amended 1000 400 500 50).2 (by decide)).1⟩

/-- C2 counterexample: a structure with one ATOM record whose confidence value
is 1/2 has mean 1/2 ≤ 1, yet `calculate_plddt` in `app.py` returns the raw
mean 1/2, not the claimed rescaled mean 50 — the claim fails for the `app`
variant. -/
theorem C2_app_rescale_counterexample :
    collectPlddt [⟨"ATOM      1  N", some ((1 : ℚ)/2)⟩] = [(1 : ℚ)/2] ∧
    listMean [(1 : ℚ)/2] ≤ 1 ∧
    appCalculatePlddt [⟨"ATOM      1  N", some ((1 : ℚ)/2)⟩] = 1/2 ∧
    appCalculatePlddt [⟨"ATOM      1  N", some ((1 : ℚ)/2)⟩] ≠
      listMean [(1 : ℚ)/2] * 100 := by
  have hc : collectPlddt [⟨"ATOM      1  N", some ((1 : ℚ)/2)⟩] =
      [(1 : ℚ)/2] := by
    simp [collectPlddt,
      (show startsWithATOM "ATOM      1  N" = true from by decide)]
  have hm : listMean [(1 : ℚ)/2] = 1/2 := by norm_num [listMean]
  have ha : appCalculatePlddt [⟨"ATOM      1  N", some ((1 : ℚ)/2)⟩] = 1/2 := by
    rw [appCalculatePlddt, hc]; norm_num [listMean]
  exact ⟨hc, by rw [hm]; norm_num, ha, by rw [ha, hm]; norm_num⟩

/-- C2 amended: for every structure with at least one parsed confidence value,
the `pipeline` and `alpha_lookup` variants of `calculate_plddt` return the
mean rescaled by 100 when the mean is ≤ 1 and the raw mean otherwise, while
the `app` variant always returns the raw mean, never rescaling. -/
theorem C2_quality_rescale_amended (pdb : PDB) (h : collectPlddt pdb ≠ []) :
    (listMean (collectPlddt pdb) ≤ 1 →
      alphaCalculatePlddt pdb = listMean (collectPlddt pdb) * 100 ∧
      pipelineCalculatePlddt pdb = listMean (collectPlddt pdb) * 100 ∧
      appCalculatePlddt pdb = listMean (collectPlddt pdb)) ∧
    (1 < listMean (collectPlddt pdb) →
      alphaCalculatePlddt pdb = listMean (collectPlddt pdb) ∧
      pipelineCalculatePlddt pdb = listMean (collectPlddt pdb) ∧
      appCalculatePlddt pdb = listMean (collectPlddt pdb)) := by
  constructor
  · intro hm
    simp [alphaCalculatePlddt, pipelineCalculatePlddt, appCalculatePlddt, h,
      hm]
  · intro hm
    simp [alphaCalculatePlddt, pipelineCalculatePlddt, appCalculatePlddt, h,
      not_le.mpr hm]

/-- Witness for the amended C2 on a one-record structure with confidence
1/2. -/
theorem C2_quality_rescale_amended_witness :
    alphaCalculatePlddt [⟨"ATOM      2  C", some ((1 : ℚ)/2)⟩] = 50 ∧
    appCalculatePlddt [⟨"ATOM      2  C", some ((1 : ℚ)/2)⟩] = 1/2 := by
  have hc : collectPlddt [⟨"ATOM      2  C", some ((1 : ℚ)/2)⟩] =
      [(1 : ℚ)/2] := by
    simp [collectPlddt,
      (show startsWithATOM "ATOM      2  C" = true from by decide)]
  have h : collectPlddt [⟨"ATOM      2  C", some ((1 : ℚ)/2)⟩] ≠ [] := by
    rw [hc]; simp
  have hm : listMean (collectPlddt [⟨"ATOM      2  C", some ((1 : ℚ)/2)⟩]) ≤
      1 := by rw [hc]; norm_num [listMean]
  have := (C2_quality_rescale_amended _ h).1 hm
  refine ⟨?_, ?_⟩
  · rw [this.1, hc]; norm_num [listMean]
  · rw [this.2.2, hc]; norm_num [listMean]

/-- C9: on a structure document with ATOM records but no parseable confidence
field (and a non-ATOM record whose field would parse, exercising the record
filter), the three variants do not agree: `pipeline` returns 100.0 while
`alpha_lookup` and `app` return 0.0. -/
theorem C9_empty_confidence_defaults :
    collectPlddt [⟨"ATOM      1  N", none⟩, ⟨"TER    42", some 3⟩] = [] ∧
    pipelineCalculatePlddt [⟨"ATOM      1  N", none⟩, ⟨"TER    42", some 3⟩] =
      100 ∧
    alphaCalculatePlddt [⟨"ATOM      1  N", none⟩, ⟨"TER    42", some 3⟩] =
      0 ∧
    appCalculatePlddt [⟨"ATOM      1  N", none⟩, ⟨"TER    42", some 3⟩] = 0 ∧
    pipelineCalculatePlddt [⟨"ATOM      1  N", none⟩, ⟨"TER    42", some 3⟩] ≠
      alphaCalculatePlddt [⟨"ATOM      1  N", none⟩, ⟨"TER    42", some 3⟩] := by
  have hc : collectPlddt [⟨"ATOM      1  N", none⟩, ⟨"TER    42", some 3⟩] =
      [] := by
    simp [collectPlddt,
      (show startsWithATOM "ATOM      1  N" = true from by decide),
      (show startsWithATOM "TER    42" = false from by decide)]
  have h1 : pipelineCalculatePlddt
      [⟨"ATOM      1  N", none⟩, ⟨"TER    42", some 3⟩] = 100 := by
    rw [pipelineCalculatePlddt, hc]; norm_num
  have h2 : alphaCalculatePlddt
      [⟨"ATOM      1  N", none⟩, ⟨"TER    42", some 3⟩] = 0 := by
    rw [alphaCalculatePlddt, hc]; norm_num
  have h3 : appCalculatePlddt
      [⟨"ATOM      1  N", none⟩, ⟨"TER    42", some 3⟩] = 0 := by
    rw [appCalculatePlddt, hc]; norm_num
  exact ⟨hc, h1, h2, h3, by rw [h1, h2]; norm_num⟩

/-- C3: in a windowed run where every fragment's structure retrieval fails
(`retrieve_structure` returns `None` on transport errors and non-200
statuses), `analyze_chunk` returns the no-result tuple for every fragment —
no exception escapes, as `analyzeChunk` is total — the report's knot list is
empty, and the final conclusion is "No knots detected". -/
theorem C3_all_transport_failures (fetch : ℕ × ℕ → Option StructureModel)
    (seqLen : ℕ) (hf : ∀ frag, fetch frag = none) :
    (∀ frag, analyzeChunk fetch frag = ⟨false, none, 0, none⟩) ∧
    runSlidingWindow fetch seqLen = [] ∧
    windowedConclusion (runSlidingWindow fetch seqLen) =
      Conclusion.unknotted := by
  have ha : ∀ frag, analyzeChunk fetch frag = ⟨false, none, 0, none⟩ := by
    intro frag
    rw [analyzeChunk, hf frag]
  have hr : runSlidingWindow fetch seqLen = [] := by
    rw [runSlidingWindow]
    apply List.filterMap_eq_nil_iff.mpr
    intro c _
    rw [ha (c.1 + 1, c.2)]
    simp
  exact ⟨ha, hr, by rw [hr]; rfl⟩

/-- Witness for C3: a run over a length-1000 sequence in which every fetch
fails. -/
theorem C3_all_transport_failures_witness :
    runSlidingWindow (fun _ => none) 1000 = [] ∧
    windowedConclusion (runSlidingWindow (fun _ => none) 1000) =
      Conclusion.unknotted :=
  ⟨(C3_all_transport_failures (fun _ => none) 1000 (fun _ => rfl)).2.1,
   (C3_all_transport_failures (fun _ => none) 1000 (fun _ => rfl)).2.2⟩

/-- C4: on a non-empty distribution the topology adapter returns as dominant
type a label of the distribution carrying a maximal probability (Python's
`max` with `key=dict.get`) and as knotted probability `1 − P("0_1")`, where an
absent `"0_1"` key contributes 0; on the distribution
`{"0_1": 0.7, "3_1": 0.3}` it returns dominant `"0_1"` and knotted
probability 0.3; on an empty or missing distribution it returns the default
fully-unknotted verdict `("0_1", 0)`.  The `pipeline` variant agrees. -/
theorem C4_topology_classifier (d : KnotDist) (hd : d ≠ []) :
    (∃ q ∈ d, (alphaRunTopologyAnalysis (some d)).dominant = some q.1 ∧
      ∀ r ∈ d, r.2 ≤ q.2) ∧
    (alphaRunTopologyAnalysis (some d)).probKnotted = 1 - distGet d "0_1" ∧
    (pipelineRunTopologyAnalysis (some d)).dominant =
      (alphaRunTopologyAnalysis (some d)).dominant ∧
    (pipelineRunTopologyAnalysis (some d)).probKnotted =
      1 - distGet d "0_1" ∧
    ((∀ p ∈ d, p.1 ≠ "0_1") → distGet d "0_1" = 0) ∧
    alphaRunTopologyAnalysis (some [("0_1", 7/10), ("3_1", 3/10)]) =
      ⟨some "0_1", 0, 3/10⟩ ∧
    alphaRunTopologyAnalysis (some []) = ⟨some "0_1", 0, 0⟩ ∧
    alphaRunTopologyAnalysis none = ⟨some "0_1", 0, 0⟩ := by
  obtain ⟨p, rest, rfl⟩ := List.exists_cons_of_ne_nil hd
  refine ⟨?_, rfl, rfl, rfl, ?_, ?_, rfl, rfl⟩
  · refine ⟨pyMaxEntry p rest, ?_, rfl, ?_⟩
    · rcases pyMaxEntry_mem p rest with h | h
      · rw [h]; exact List.mem_cons_self p rest
      · exact List.mem_cons_of_mem p h
    · intro r hr
      rcases List.mem_cons.mp hr with h | h
      · rw [h]; exact (pyMaxEntry_max p rest).1
      · exact (pyMaxEntry_max p rest).2 r h
  · intro h
    have hn : (p :: rest).find? (fun q => q.1 = "0_1") = none := by
      rw [List.find?_eq_none]
      intro x hx
      simpa using h x hx
    rw [distGet, hn]
  · have hmax : pyMaxEntry ("0_1", (7 : ℚ)/10) [("3_1", 3/10)] =
        ("0_1", 7/10) := by
      norm_num [pyMaxEntry]
    rw [alphaRunTopologyAnalysis, hmax]
    have hget : distGet [("0_1", (7 : ℚ)/10), ("3_1", 3/10)] "0_1" = 7/10 := by
      norm_num [distGet, List.find?]
    rw [hget]
    norm_num

/-- Witness for C4 on the distribution of the spec's example. -/
theorem C4_topology_classifier_witness :
    (alphaRunTopologyAnalysis
      (some [("0_1", (7 : ℚ)/10), ("3_1", 3/10)])).probKnotted =
      1 - distGet [("0_1", (7 : ℚ)/10), ("3_1", 3/10)] "0_1" :=
  (C4_topology_classifier [("0_1", (7 : ℚ)/10), ("3_1", 3/10)]
    (by simp)).2.1

/-- C5: for a fragment whose structure was retrieved, `is_knotted` is true iff
the knotted probability strictly exceeds `KNOT_THRESHOLD = 0.5`; in
particular a fragment whose knotted probability equals the threshold exactly
is classified as not knotted. -/
theorem C5_knot_threshold_strict (fetch : ℕ × ℕ → Option StructureModel)
    (frag : ℕ × ℕ) (s : StructureModel) (hs : fetch frag = some s) :
    ((analyzeChunk fetch frag).isKnotted = true ↔
      KNOT_THRESHOLD < (alphaRunTopologyAnalysis s.alexDist).probKnotted) ∧
    ((alphaRunTopologyAnalysis s.alexDist).probKnotted = KNOT_THRESHOLD →
      (analyzeChunk fetch frag).isKnotted = false) := by
  rw [analyzeChunk, hs]
  constructor
  · by_cases hp :
      KNOT_THRESHOLD < (alphaRunTopologyAnalysis s.alexDist).probKnotted
    · simp [hp]
    · simp [hp]
  · intro he
    simp [he]

/-- Witness for C5: a structure whose knotted probability is exactly 0.5
(distribution `{"0_1": 0.5, "3_1": 0.5}`) is not knotted. -/
theorem C5_knot_threshold_strict_witness :
    (analyzeChunk
      (fun _ => some ⟨[], some [("0_1", (1 : ℚ)/2), ("3_1", 1/2)]⟩)
      (1, 400)).isKnotted = false := by
  refine (C5_knot_threshold_strict
    (fun _ => some ⟨[], some [("0_1", (1 : ℚ)/2), ("3_1", 1/2)]⟩)
    (1, 400) ⟨[], some [("0_1", (1 : ℚ)/2), ("3_1", 1/2)]⟩ rfl).2 ?_
  have hget : distGet [("0_1", (1 : ℚ)/2), ("3_1", 1/2)] "0_1" = 1/2 := by
    norm_num [distGet, List.find?]
  show 1 - distGet [("0_1", (1 : ℚ)/2), ("3_1", 1/2)] "0_1" = KNOT_THRESHOLD
  rw [hget, KNOT_THRESHOLD]
  norm_num

/-- C8 counterexample: at knotted probability 0.3 — inside the claimed
ambiguity band `[0.2, 0.5]` — the direct mode of `alpha_lookup.py` prints
"UNKNOTTED", not the claimed AMBIGUOUS: its verdict is two-way, with no
ambiguity band. -/
theorem C8_direct_mode_counterexample :
    ((1 : ℚ)/5 ≤ 3/10 ∧ (3 : ℚ)/10 ≤ KNOT_THRESHOLD) ∧
    alphaDirectVerdict (3/10) = DirectConclusion.unknotted ∧
    alphaDirectVerdict (3/10) ≠ DirectConclusion.ambiguous := by
  have h : alphaDirectVerdict (3/10) = DirectConclusion.unknotted := by
    rw [alphaDirectVerdict, KNOT_THRESHOLD]
    norm_num
  refine ⟨⟨by norm_num, ?_⟩, h, by rw [h]; simp⟩
  rw [KNOT_THRESHOLD]; norm_num

/-- C8 amended: the `pipeline` and `app` variants use the claimed three-way
rule (KNOTTED above the threshold, UNKNOTTED below 0.2, AMBIGUOUS in
between), while the direct mode of `alpha_lookup` is two-way: KNOTTED above
the threshold and UNKNOTTED everywhere else, including the `[0.2, 0.5]`
band. -/
theorem C8_direct_mode_amended (prob : ℚ) :
    (KNOT_THRESHOLD < prob →
      pipelineDirectVerdict prob = DirectConclusion.knotDetected ∧
      appDirectVerdict prob = DirectConclusion.knotDetected ∧
      alphaDirectVerdict prob = DirectConclusion.knotDetected) ∧
    (prob < 1/5 →
      pipelineDirectVerdict prob = DirectConclusion.unknotted ∧
      appDirectVerdict prob = DirectConclusion.unknotted ∧
      alphaDirectVerdict prob = DirectConclusion.unknotted) ∧
    (1/5 ≤ prob → prob ≤ KNOT_THRESHOLD →
      pipelineDirectVerdict prob = DirectConclusion.ambiguous ∧
      appDirectVerdict prob = DirectConclusion.ambiguous ∧
      alphaDirectVerdict prob = DirectConclusion.unknotted) := by
  refine ⟨fun h => ?_, fun h => ?_, fun h1 h2 => ?_⟩
  · simp [pipelineDirectVerdict, appDirectVerdict, alphaDirectVerdict, h]
  · have hn : ¬ KNOT_THRESHOLD < prob := by
      rw [KNOT_THRESHOLD]; linarith
    simp only [pipelineDirectVerdict, appDirectVerdict, alphaDirectVerdict,
      gt_iff_lt, if_neg hn, if_pos h, and_self, and_true]
  · have hn : ¬ KNOT_THRESHOLD < prob := not_lt.mpr h2
    have hn2 : ¬ prob < 1/5 := not_lt.mpr h1
    simp only [pipelineDirectVerdict, appDirectVerdict, alphaDirectVerdict,
      gt_iff_lt, if_neg hn, if_neg hn2, and_self]

/-- Witness for the amended C8 at probability 0.3 (the ambiguity band). -/
theorem C8_direct_mode_amended_witness :
    pipelineDirectVerdict (3/10) = DirectConclusion.ambiguous ∧
    appDirectVerdict (3/10) = DirectConclusion.ambiguous ∧
    alphaDirectVerdict (3/10) = DirectConclusion.unknotted :=
  (C8_direct_mode_amended (3/10)).2.2 (by norm_num)
    (by rw [KNOT_THRESHOLD]; norm_num)

/-- C10: the quality score never influences the knot verdict or report
membership.  If two external worlds deliver, for every fragment, the same
fetch success pattern and the same knot-type distribution — while the
structure documents, and hence the computed pLDDT quality, may differ
arbitrarily — then every fragment's `is_knotted` outcome is identical and the
two reports list exactly the same fragments (same ranges and knot types), in
both the `alpha_lookup` and the `app` windowed runs.  Quality is diagnostic
output only. -/
theorem C10_quality_noninterference (f1 f2 : ℕ × ℕ → Option StructureModel)
    (seqLen : ℕ)
    (h : ∀ frag, (f1 frag).map StructureModel.alexDist =
      (f2 frag).map StructureModel.alexDist) :
    (∀ frag, (analyzeChunk f1 frag).isKnotted =
      (analyzeChunk f2 frag).isKnotted) ∧
    (runSlidingWindow f1 seqLen).map
        (fun r => (r.rangeStart, r.rangeEnd, r.ktype)) =
      (runSlidingWindow f2 seqLen).map
        (fun r => (r.rangeStart, r.rangeEnd, r.ktype)) ∧
    (appRunWindowed f1 seqLen).map
        (fun r => (r.rangeStart, r.rangeEnd, r.ktype)) =
      (appRunWindowed f2 seqLen).map
        (fun r => (r.rangeStart, r.rangeEnd, r.ktype)) := by
  have hker : ∀ frag s1 s2, f1 frag = some s1 → f2 frag = some s2 →
      s1.alexDist = s2.alexDist := by
    intro frag s1 s2 h1 h2
    have := h frag
    rw [h1, h2] at this
    simpa using this
  refine ⟨?_, ?_, ?_⟩
  · intro frag
    cases h1 : f1 frag with
    | none =>
      have h2 : f2 frag = none := by
        have := h frag; rw [h1] at this; simpa using this.symm
      rw [analyzeChunk, analyzeChunk, h1, h2]
    | some s1 =>
      cases h2 : f2 frag with
      | none =>
        have := h frag; rw [h1, h2] at this; simp at this
      | some s2 =>
        have hd := hker frag s1 s2 h1 h2
        rw [analyzeChunk, analyzeChunk, h1, h2]
        simp only [hd]
        by_cases hc :
          (alphaRunTopologyAnalysis s2.alexDist).probKnotted >
            KNOT_THRESHOLD <;> simp [hc]
  · rw [runSlidingWindow, runSlidingWindow, List.map_filterMap,
      List.map_filterMap]
    apply List.filterMap_congr
    intro c _
    cases h1 : f1 (c.1 + 1, c.2) with
    | none =>
      have h2 : f2 (c.1 + 1, c.2) = none := by
        have := h (c.1 + 1, c.2); rw [h1] at this; simpa using this.symm
      rw [analyzeChunk, analyzeChunk, h1, h2]
    | some s1 =>
      cases h2 : f2 (c.1 + 1, c.2) with
      | none =>
        have := h (c.1 + 1, c.2); rw [h1, h2] at this; simp at this
      | some s2 =>
        have hd := hker (c.1 + 1, c.2) s1 s2 h1 h2
        rw [analyzeChunk, analyzeChunk, h1, h2]
        simp only [hd]
        by_cases hc :
          (alphaRunTopologyAnalysis s2.alexDist).probKnotted >
            KNOT_THRESHOLD <;> simp [hc]
  · rw [appRunWindowed, appRunWindowed, List.map_filterMap,
      List.map_filterMap]
    apply List.filterMap_congr
    intro c _
    cases h1 : f1 (c.1 + 1, c.2) with
    | none =>
      have h2 : f2 (c.1 + 1, c.2) = none := by
        have := h (c.1 + 1, c.2); rw [h1] at this; simpa using this.symm
      rw [h2]
    | some s1 =>
      cases h2 : f2 (c.1 + 1, c.2) with
      | none =>
        have := h (c.1 + 1, c.2); rw [h1, h2] at this; simp at this
      | some s2 =>
        have hd := hker (c.1 + 1, c.2) s1 s2 h1 h2
        by_cases hc :
          (appRunTopologyAnalysis s2.alexDist).2 > KNOT_THRESHOLD <;>
          simp [hd, hc]

/-- Witness for C10: two worlds that agree on the distribution
`{"3_1": 1}` for every fragment but disagree on the structure document (and
hence on quality: 0 versus 100) produce reports listing exactly the same
fragments. -/
theorem C10_quality_noninterference_witness :
    (runSlidingWindow (fun _ => some ⟨[], some [("3_1", 1)]⟩) 1000).map
        (fun r => (r.rangeStart, r.rangeEnd, r.ktype)) =
      (runSlidingWindow
          (fun _ => some ⟨[⟨"ATOM      1  N", some 1⟩], some [("3_1", 1)]⟩)
          1000).map
        (fun r => (r.rangeStart, r.rangeEnd, r.ktype)) :=
  (C10_quality_noninterference
    (fun _ => some ⟨[], some [("3_1", 1)]⟩)
    (fun _ => some ⟨[⟨"ATOM      1  N", some 1⟩], some [("3_1", 1)]⟩)
    1000 (fun _ => rfl)).2.1

end ProteinKnot
